import Mathlib

/-!
Shallow embedding of the 1024 vault program (src/state.rs, src/processor.rs,
src/utils.rs) and verification of its natural-language specification.

Machine integers are modelled as follows:
* `i64` values are `Int`; Rust's unchecked `+`/`-` (which wrap in release
  builds) are `i64add`/`i64sub` (reduction modulo 2^64 into the signed range),
  while `checked_add`/`checked_sub` from utils.rs become `checked_add`/
  `checked_sub` returning `Except`.
* `u64`/`u32`/`u16` values are `Nat`; unchecked addition wraps via `wrapU64` /
  `wrapU32`; `x as i64` is `i64OfU64`.
* Fallible handlers return `Except VaultError σ`; an `Except.error` result
  models a failed instruction, after which the Solana runtime reverts every
  account write, so no state is persisted.
* Account (de)serialization is the identity: handlers receive and return the
  typed records directly.  Clock reads become an explicit `current_ts`
  argument, and PDA/ownership checks whose outcome depends on hashing
  (`find_program_address`) become explicit `Bool`/`Pubkey` parameters.
-/

/-- Solana public keys are opaque 32-byte identities; only equality and the
all-zero sentinel matter to this program, so they are modelled as `Nat`. -/
abbrev Pubkey := Nat

/-- `Pubkey::default()`, the all-zero sentinel identity. -/
def pubkeyDefault : Pubkey := 0

def i64Min : Int := -9223372036854775808

def i64Max : Int := 9223372036854775807

def u64Size : Nat := 18446744073709551616

def u64SizeInt : Int := 18446744073709551616

def u32Size : Nat := 4294967296

/-- Range predicate for `i64` values. -/
def inI64 (x : Int) : Prop := i64Min ≤ x ∧ x ≤ i64Max

instance (x : Int) : Decidable (inI64 x) := by
  unfold inI64; exact instDecidableAnd

/-- Wrapping of an integer into the signed 64-bit range, the semantics of
Rust's unchecked `i64` arithmetic in release builds. -/
def wrapI64 (x : Int) : Int := (x + 9223372036854775808) % u64SizeInt - 9223372036854775808

/-- Unchecked (wrapping) `i64` addition. -/
def i64add (a b : Int) : Int := wrapI64 (a + b)

/-- Unchecked (wrapping) `i64` subtraction. -/
def i64sub (a b : Int) : Int := wrapI64 (a - b)

/-- Wrapping `u64` addition / cast. -/
def wrapU64 (x : Nat) : Nat := x % u64Size

/-- Wrapping `u32` arithmetic. -/
def wrapU32 (x : Nat) : Nat := x % u32Size

/-- The Rust cast `x as i64` applied to a `u64` value. -/
def i64OfU64 (x : Nat) : Int :=
  if x < 9223372036854775808 then (x : Int) else (x : Int) - u64SizeInt

theorem wrapI64_eq_of (x : Int) (h : inI64 x) : wrapI64 x = x := by
  obtain ⟨h1, h2⟩ := h
  unfold wrapI64 u64SizeInt
  unfold i64Min at h1
  unfold i64Max at h2
  rw [Int.emod_eq_of_lt (by omega) (by omega)]
  omega

theorem i64OfU64_small (x : Nat) (h : x < 9223372036854775808) :
    i64OfU64 x = (x : Int) := by
  unfold i64OfU64
  rw [if_pos h]

/-- Errors of the program.  The first block mirrors `VaultError` in
src/error.rs; the final two constructors model the `solana_program`
`ProgramError` variants raised by `assert_signer` and `assert_writable`. -/
inductive VaultError where
  | InvalidInstruction
  | InsufficientBalance
  | InsufficientMargin
  | UnauthorizedCaller
  | VaultPaused
  | InvalidAmount
  | InvalidAccount
  | Overflow
  | InsuranceFundInsufficient
  | InvalidPda
  | AlreadyInitialized
  | NotInitialized
  | InvalidAdmin
  | InvalidCallerPda
  | CallerNotSigner
  | InvalidRelayer
  | UnauthorizedAdmin
  | UnauthorizedUser
  | DepositFailed
  | SettlementFailed
  | TokenSlotsFull
  | MissingSignature
  | InvalidUserAccount
  | RecurringAuthNotActive
  | InvalidCycleCount
  | RecurringAuthExecutionFailed
  | MissingRequiredSignature
  | InvalidAccountData
deriving Repr, DecidableEq

instance {ε α : Type} [DecidableEq ε] [DecidableEq α] : DecidableEq (Except ε α) := fun x y =>
  match x, y with
  | Except.ok a, Except.ok b =>
    if h : a = b then isTrue (by rw [h])
    else isFalse (by intro hh; injection hh; contradiction)
  | Except.error a, Except.error b =>
    if h : a = b then isTrue (by rw [h])
    else isFalse (by intro hh; injection hh; contradiction)
  | Except.ok _, Except.error _ => isFalse (by intro hh; cases hh)
  | Except.error _, Except.ok _ => isFalse (by intro hh; cases hh)

/-- utils.rs `checked_add`: safe `i64` addition. -/
def checked_add (a b : Int) : Except VaultError Int :=
  if inI64 (a + b) then Except.ok (a + b) else Except.error VaultError.Overflow

/-- utils.rs `checked_sub`: safe `i64` subtraction. -/
def checked_sub (a b : Int) : Except VaultError Int :=
  if inI64 (a - b) then Except.ok (a - b) else Except.error VaultError.Overflow

/-- utils.rs `checked_add_u64`: safe `u64` addition. -/
def checked_add_u64 (a b : Nat) : Except VaultError Nat :=
  if a + b < u64Size then Except.ok (a + b) else Except.error VaultError.Overflow

/-- `i64::checked_add(..).ok_or("Overflow")` as used inline in state.rs. -/
def checkedAddI64Str (a b : Int) : Except String Int :=
  if inI64 (a + b) then Except.ok (a + b) else Except.error "Overflow"

theorem checked_add_ok {a b v : Int} (h : checked_add a b = Except.ok v) :
    v = a + b := by
  unfold checked_add at h
  split at h
  · exact (Except.ok.injEq _ _).mp h |>.symm
  · cases h

theorem checked_sub_ok {a b v : Int} (h : checked_sub a b = Except.ok v) :
    v = a - b := by
  unfold checked_sub at h
  split at h
  · exact (Except.ok.injEq _ _).mp h |>.symm
  · cases h

theorem checked_add_of_inI64 (a b : Int) (h : inI64 (a + b)) :
    checked_add a b = Except.ok (a + b) := by
  unfold checked_add
  rw [if_pos h]

theorem checked_sub_of_inI64 (a b : Int) (h : inI64 (a - b)) :
    checked_sub a b = Except.ok (a - b) := by
  unfold checked_sub
  rw [if_pos h]

-- ===========================================================================
-- state.rs: persisted records
-- ===========================================================================

/-- `VaultConfig` (state.rs).  The `reserved` padding bytes are omitted; the
ten-slot whitelist `[Pubkey; 10]` is a `List Pubkey` (its length never enters
the logic). -/
structure VaultConfig where
  discriminator : Nat
  admin : Pubkey
  usdc_mint : Pubkey
  vault_token_account : Pubkey
  authorized_callers : List Pubkey
  ledger_program : Pubkey
  fund_program : Pubkey
  delegation_program : Pubkey
  total_deposits : Nat
  total_locked : Nat
  is_paused : Bool
deriving Repr, DecidableEq

/-- `VaultConfig::is_authorized_caller` (state.rs lines 102-118), including
the asymmetry of the sentinel guard: `ledger_program` is compared without a
zero check, `fund_program` and the whitelist entries with one. -/
def VaultConfig.is_authorized_caller (c : VaultConfig) (caller : Pubkey) : Bool :=
  if caller == c.ledger_program then true
  else if c.fund_program != pubkeyDefault && caller == c.fund_program then true
  else c.authorized_callers.any fun a => a != pubkeyDefault && caller == a

/-- `UserAccount` (state.rs).  `reserved` omitted. -/
structure UserAccount where
  discriminator : Nat
  wallet : Pubkey
  bump : Nat
  available_balance_e6 : Int
  locked_margin_e6 : Int
  unrealized_pnl_e6 : Int
  total_deposited_e6 : Int
  total_withdrawn_e6 : Int
  last_update_ts : Int
deriving Repr, DecidableEq

/-- `PredictionMarketUserAccount` (state.rs).  `reserved` omitted. -/
structure PredictionMarketUserAccount where
  discriminator : Nat
  wallet : Pubkey
  bump : Nat
  prediction_market_locked_e6 : Int
  prediction_market_pending_settlement_e6 : Int
  prediction_market_total_deposited_e6 : Int
  prediction_market_total_withdrawn_e6 : Int
  prediction_market_realized_pnl_e6 : Int
  last_update_ts : Int
deriving Repr, DecidableEq

/-- `PredictionMarketUserAccount::prediction_market_lock` (state.rs lines
269-273).  The source uses unchecked `+=`, hence the wrapping `i64add`. -/
def PredictionMarketUserAccount.prediction_market_lock
    (s : PredictionMarketUserAccount) (amount : Int) (current_ts : Int) :
    PredictionMarketUserAccount :=
  { s with
    prediction_market_locked_e6 := i64add s.prediction_market_locked_e6 amount
    prediction_market_total_deposited_e6 :=
      i64add s.prediction_market_total_deposited_e6 amount
    last_update_ts := current_ts }

/-- `TokenBalance` (state.rs).  `reserved` omitted. -/
structure TokenBalance where
  token_index : Nat
  available_e6 : Int
  locked_e6 : Int
deriving Repr, DecidableEq

def emptyTokenBalance : TokenBalance :=
  { token_index := 0, available_e6 := 0, locked_e6 := 0 }

def MAX_TOKEN_SLOTS : Nat := 16

/-- `SpotUserAccount` (state.rs).  The fixed array `[TokenBalance; 16]` is a
`List TokenBalance` (concrete instances use 16 entries); `reserved` omitted. -/
structure SpotUserAccount where
  discriminator : Nat
  wallet : Pubkey
  bump : Nat
  last_settled_sequence : Nat
  token_count : Nat
  token_balances : List TokenBalance
  last_update_ts : Int
deriving Repr, DecidableEq

/-- Read slot `i` of the balance table. -/
def SpotUserAccount.tb (s : SpotUserAccount) (i : Nat) : TokenBalance :=
  s.token_balances.getD i emptyTokenBalance

/-- Overwrite slot `i` of the balance table. -/
def setSlot (l : List TokenBalance) (i : Nat) (f : TokenBalance → TokenBalance) :
    List TokenBalance :=
  l.set i (f (l.getD i emptyTokenBalance))

/-- `SpotUserAccount::find_token_slot` (state.rs): linear scan of the first
`token_count` slots for a matching `token_index`. -/
def SpotUserAccount.find_token_slot (s : SpotUserAccount) (token_index : Nat) :
    Option Nat :=
  (List.range s.token_count).find? fun i => (s.tb i).token_index == token_index

/-- `SpotUserAccount::get_or_create_token_slot` (state.rs): reuse an existing
slot or claim the next free one; `none` when all 16 slots are taken. -/
def SpotUserAccount.get_or_create_token_slot (s : SpotUserAccount)
    (token_index : Nat) : Option (Nat × SpotUserAccount) :=
  match s.find_token_slot token_index with
  | some slot => some (slot, s)
  | none =>
    if s.token_count ≥ MAX_TOKEN_SLOTS then none
    else
      let slot := s.token_count
      some (slot,
        { s with
          token_balances := setSlot s.token_balances slot
            (fun tb => { tb with token_index := token_index })
          token_count := s.token_count + 1 })

/-- `SpotUserAccount::deposit` (state.rs lines 461-474). -/
def SpotUserAccount.deposit (s : SpotUserAccount) (token_index : Nat)
    (amount : Int) (current_ts : Int) : Except String SpotUserAccount :=
  if amount ≤ 0 then Except.error "Deposit amount must be positive"
  else
    match s.get_or_create_token_slot token_index with
    | none => Except.error "Token slots full"
    | some (slot, s1) =>
      match checkedAddI64Str (s1.tb slot).available_e6 amount with
      | Except.error e => Except.error e
      | Except.ok v =>
        Except.ok { s1 with
          token_balances := setSlot s1.token_balances slot
            (fun tb => { tb with available_e6 := v })
          last_update_ts := current_ts }

/-- `SpotUserAccount::withdraw` (state.rs lines 477-492).  The debit itself is
an unchecked `-=` guarded by the balance test. -/
def SpotUserAccount.withdraw (s : SpotUserAccount) (token_index : Nat)
    (amount : Int) (current_ts : Int) : Except String SpotUserAccount :=
  if amount ≤ 0 then Except.error "Withdraw amount must be positive"
  else
    match s.find_token_slot token_index with
    | none => Except.error "Token not found"
    | some slot =>
      if (s.tb slot).available_e6 < amount then Except.error "Insufficient balance"
      else
        Except.ok { s with
          token_balances := setSlot s.token_balances slot
            (fun tb => { tb with available_e6 := i64sub tb.available_e6 amount })
          last_update_ts := current_ts }

/-- `SpotUserAccount::lock_balance` (state.rs lines 495-513). -/
def SpotUserAccount.lock_balance (s : SpotUserAccount) (token_index : Nat)
    (amount : Int) (current_ts : Int) : Except String SpotUserAccount :=
  if amount ≤ 0 then Except.error "Lock amount must be positive"
  else
    match s.find_token_slot token_index with
    | none => Except.error "Token not found"
    | some slot =>
      if (s.tb slot).available_e6 < amount then
        Except.error "Insufficient balance to lock"
      else
        match checkedAddI64Str (s.tb slot).locked_e6 amount with
        | Except.error e => Except.error e
        | Except.ok v =>
          Except.ok { s with
            token_balances := setSlot s.token_balances slot
              (fun tb => { tb with
                available_e6 := i64sub tb.available_e6 amount
                locked_e6 := v })
            last_update_ts := current_ts }

/-- The branch body of `SpotUserAccount::settle_trade` (state.rs lines
555-587): the buy/sell leg movements, before the watermark is advanced. -/
def SpotUserAccount.settle_trade_core (s : SpotUserAccount) (is_buy : Bool)
    (base_token_index quote_token_index : Nat) (base_amount quote_amount : Int) :
    Except String SpotUserAccount :=
  if is_buy then
    match s.find_token_slot quote_token_index with
    | none => Except.error "Quote token not found"
    | some quote_slot =>
      if (s.tb quote_slot).locked_e6 < quote_amount then
        Except.error "Insufficient locked quote balance"
      else
        let s1 : SpotUserAccount := { s with
          token_balances := setSlot s.token_balances quote_slot
            (fun tb => { tb with locked_e6 := i64sub tb.locked_e6 quote_amount }) }
        match s1.get_or_create_token_slot base_token_index with
        | none => Except.error "Token slots full"
        | some (base_slot, s2) =>
          match checkedAddI64Str (s2.tb base_slot).available_e6 base_amount with
          | Except.error e => Except.error e
          | Except.ok v =>
            Except.ok { s2 with
              token_balances := setSlot s2.token_balances base_slot
                (fun tb => { tb with available_e6 := v }) }
  else
    match s.find_token_slot base_token_index with
    | none => Except.error "Base token not found"
    | some base_slot =>
      if (s.tb base_slot).locked_e6 < base_amount then
        Except.error "Insufficient locked base balance"
      else
        let s1 : SpotUserAccount := { s with
          token_balances := setSlot s.token_balances base_slot
            (fun tb => { tb with locked_e6 := i64sub tb.locked_e6 base_amount }) }
        match s1.get_or_create_token_slot quote_token_index with
        | none => Except.error "Token slots full"
        | some (quote_slot, s2) =>
          match checkedAddI64Str (s2.tb quote_slot).available_e6 quote_amount with
          | Except.error e => Except.error e
          | Except.ok v =>
            Except.ok { s2 with
              token_balances := setSlot s2.token_balances quote_slot
                (fun tb => { tb with available_e6 := v }) }

/-- `SpotUserAccount::settle_trade` (state.rs lines 540-592): sequence gate
first, then the leg movements, then the watermark/timestamp update. -/
def SpotUserAccount.settle_trade (s : SpotUserAccount) (is_buy : Bool)
    (base_token_index quote_token_index : Nat) (base_amount quote_amount : Int)
    (sequence : Nat) (current_ts : Int) : Except String SpotUserAccount :=
  if sequence ≤ s.last_settled_sequence then Except.error "Invalid sequence"
  else
    match s.settle_trade_core is_buy base_token_index quote_token_index
        base_amount quote_amount with
    | Except.error e => Except.error e
    | Except.ok s1 =>
      Except.ok { s1 with
        last_settled_sequence := sequence
        last_update_ts := current_ts }

/-- The branch body of `SpotUserAccount::settle_trade_v2` (state.rs lines
618-676): pay from `available` first, fall back to `locked`.  The additions
`quote_amount + fee_e6`, `available + locked` and the guarded `-=` debits are
unchecked in the source, hence `i64add`/`i64sub`. -/
def SpotUserAccount.settle_trade_v2_core (s : SpotUserAccount) (is_buy : Bool)
    (base_token_index quote_token_index : Nat)
    (base_amount quote_amount fee_e6 : Int) : Except String SpotUserAccount :=
  if is_buy then
    match s.get_or_create_token_slot quote_token_index with
    | none => Except.error "Token slots full"
    | some (quote_slot, s1) =>
      let total_cost := i64add quote_amount fee_e6
      let available := (s1.tb quote_slot).available_e6
      let locked := (s1.tb quote_slot).locked_e6
      match
        (if available ≥ total_cost then
          Except.ok { s1 with
            token_balances := setSlot s1.token_balances quote_slot
              (fun tb => { tb with available_e6 := i64sub tb.available_e6 total_cost }) }
        else if i64add available locked ≥ total_cost then
          let from_locked := i64sub total_cost available
          Except.ok { s1 with
            token_balances := setSlot s1.token_balances quote_slot
              (fun tb => { tb with
                available_e6 := 0
                locked_e6 := i64sub tb.locked_e6 from_locked }) }
        else (Except.error "Insufficient quote balance for buy" :
          Except String SpotUserAccount)) with
      | Except.error e => Except.error e
      | Except.ok s2 =>
        match s2.get_or_create_token_slot base_token_index with
        | none => Except.error "Token slots full"
        | some (base_slot, s3) =>
          match checkedAddI64Str (s3.tb base_slot).available_e6 base_amount with
          | Except.error e => Except.error e
          | Except.ok v =>
            Except.ok { s3 with
              token_balances := setSlot s3.token_balances base_slot
                (fun tb => { tb with available_e6 := v }) }
  else
    match s.get_or_create_token_slot base_token_index with
    | none => Except.error "Token slots full"
    | some (base_slot, s1) =>
      let available := (s1.tb base_slot).available_e6
      let locked := (s1.tb base_slot).locked_e6
      match
        (if available ≥ base_amount then
          Except.ok { s1 with
            token_balances := setSlot s1.token_balances base_slot
              (fun tb => { tb with available_e6 := i64sub tb.available_e6 base_amount }) }
        else if i64add available locked ≥ base_amount then
          let from_locked := i64sub base_amount available
          Except.ok { s1 with
            token_balances := setSlot s1.token_balances base_slot
              (fun tb => { tb with
                available_e6 := 0
                locked_e6 := i64sub tb.locked_e6 from_locked }) }
        else (Except.error "Insufficient base balance for sell" :
          Except String SpotUserAccount)) with
      | Except.error e => Except.error e
      | Except.ok s2 =>
        match s2.get_or_create_token_slot quote_token_index with
        | none => Except.error "Token slots full"
        | some (quote_slot, s3) =>
          let net_quote := i64sub quote_amount fee_e6
          if net_quote < 0 then Except.error "Fee exceeds quote amount"
          else
            match checkedAddI64Str (s3.tb quote_slot).available_e6 net_quote with
            | Except.error e => Except.error e
            | Except.ok v =>
              Except.ok { s3 with
                token_balances := setSlot s3.token_balances quote_slot
                  (fun tb => { tb with available_e6 := v }) }

/-- `SpotUserAccount::settle_trade_v2` (state.rs lines 602-681): sequence gate
first, then the leg movements, then the watermark/timestamp update. -/
def SpotUserAccount.settle_trade_v2 (s : SpotUserAccount) (is_buy : Bool)
    (base_token_index quote_token_index : Nat)
    (base_amount quote_amount fee_e6 : Int) (sequence : Nat) (current_ts : Int) :
    Except String SpotUserAccount :=
  if sequence ≤ s.last_settled_sequence then
    Except.error "Invalid sequence - already settled"
  else
    match s.settle_trade_v2_core is_buy base_token_index quote_token_index
        base_amount quote_amount fee_e6 with
    | Except.error e => Except.error e
    | Except.ok s1 =>
      Except.ok { s1 with
        last_settled_sequence := sequence
        last_update_ts := current_ts }

/-- `RecurringAuth` (state.rs).  The `state_hash` and `reserved` fields are
omitted (no claim depends on them). -/
structure RecurringAuth where
  discriminator : Nat
  payer : Pubkey
  payee : Pubkey
  bump : Nat
  amount_e6 : Nat
  interval_seconds : Int
  max_cycles : Nat
  current_cycles : Nat
  is_active : Bool
  created_at : Int
  last_executed_at : Int
deriving Repr, DecidableEq

def RECURRING_AUTH_DISCRIMINATOR : Nat := 0x5245435F41555448

/-- `RecurringAuth::new` (state.rs lines 768-792). -/
def RecurringAuth.new (payer payee : Pubkey) (bump : Nat) (amount_e6 : Nat)
    (interval_seconds : Int) (max_cycles : Nat) (created_at : Int) :
    RecurringAuth :=
  { discriminator := RECURRING_AUTH_DISCRIMINATOR
    payer := payer
    payee := payee
    bump := bump
    amount_e6 := amount_e6
    interval_seconds := interval_seconds
    max_cycles := max_cycles
    current_cycles := 0
    is_active := true
    created_at := created_at
    last_executed_at := 0 }

/-- `RecurringAuth::execute` (state.rs lines 795-809): reject if inactive,
advance `current_cycles` (unchecked `u32` increment), stamp the time, and
auto-deactivate on reaching `max_cycles` when bounded. -/
def RecurringAuth.execute (a : RecurringAuth) (current_ts : Int) :
    Except String RecurringAuth :=
  if !a.is_active then Except.error "Recurring auth is not active"
  else
    let c := wrapU32 (a.current_cycles + 1)
    let a1 : RecurringAuth :=
      { a with current_cycles := c, last_executed_at := current_ts }
    if a.max_cycles > 0 ∧ c ≥ a.max_cycles then
      Except.ok { a1 with is_active := false }
    else
      Except.ok a1

/-- `RecurringAuth::cancel` (state.rs lines 812-814). -/
def RecurringAuth.cancel (a : RecurringAuth) : RecurringAuth :=
  { a with is_active := false }

-- ===========================================================================
-- processor.rs: instruction handlers
-- ===========================================================================

/-- `verify_cpi_caller` (processor.rs lines 57-86).  `ledgerConfigPda` stands
for the `find_program_address(["ledger_config"], ledger_program)` result,
which the embedding cannot compute and therefore takes as a parameter. -/
def verify_cpi_caller (c : VaultConfig) (callerKey ledgerConfigPda : Pubkey) :
    Except VaultError Unit :=
  if !c.is_authorized_caller callerKey then
    Except.error VaultError.UnauthorizedCaller
  else if callerKey == ledgerConfigPda then Except.ok ()
  else if callerKey == c.ledger_program then Except.ok ()
  else if c.authorized_callers.any
      (fun pk => pk == callerKey && pk != pubkeyDefault) then Except.ok ()
  else if c.fund_program != pubkeyDefault && callerKey == c.fund_program then
    Except.ok ()
  else Except.error VaultError.InvalidCallerPda

/-- `process_deposit` (processor.rs lines 456-501).  The SPL token transfer
leg is external and always modelled as succeeding; the handler returns the
updated user record and config. -/
def processDeposit (userSigner : Bool) (config : VaultConfig)
    (user_account : UserAccount) (amount : Nat) (current_ts : Int) :
    Except VaultError (UserAccount × VaultConfig) :=
  if !userSigner then Except.error VaultError.MissingRequiredSignature
  else if amount == 0 then Except.error VaultError.InvalidAmount
  else if config.is_paused then Except.error VaultError.VaultPaused
  else
    match checked_add user_account.available_balance_e6 (i64OfU64 amount) with
    | Except.error e => Except.error e
    | Except.ok avail =>
      match checked_add user_account.total_deposited_e6 (i64OfU64 amount) with
      | Except.error e => Except.error e
      | Except.ok dep =>
        match checked_add_u64 config.total_deposits amount with
        | Except.error e => Except.error e
        | Except.ok total =>
          Except.ok
            ({ user_account with
                available_balance_e6 := avail
                total_deposited_e6 := dep
                last_update_ts := current_ts },
             { config with total_deposits := total })

/-- `process_withdraw` (processor.rs lines 504-551).  The vault-signed token
transfer leg is external and modelled as succeeding. -/
def processWithdraw (userSigner : Bool) (config : VaultConfig)
    (user_account : UserAccount) (amount : Nat) (current_ts : Int) :
    Except VaultError UserAccount :=
  if !userSigner then Except.error VaultError.MissingRequiredSignature
  else if amount == 0 then Except.error VaultError.InvalidAmount
  else if config.is_paused then Except.error VaultError.VaultPaused
  else if user_account.available_balance_e6 < i64OfU64 amount then
    Except.error VaultError.InsufficientBalance
  else
    match checked_sub user_account.available_balance_e6 (i64OfU64 amount) with
    | Except.error e => Except.error e
    | Except.ok avail =>
      match checked_add user_account.total_withdrawn_e6 (i64OfU64 amount) with
      | Except.error e => Except.error e
      | Except.ok wd =>
        Except.ok { user_account with
          available_balance_e6 := avail
          total_withdrawn_e6 := wd
          last_update_ts := current_ts }

/-- `process_lock_margin` (processor.rs lines 554-582). -/
def processLockMargin (config : VaultConfig) (user_account : UserAccount)
    (callerKey ledgerConfigPda : Pubkey) (amount : Nat) (current_ts : Int) :
    Except VaultError UserAccount :=
  if amount == 0 then Except.error VaultError.InvalidAmount
  else
    match verify_cpi_caller config callerKey ledgerConfigPda with
    | Except.error e => Except.error e
    | Except.ok _ =>
      if user_account.available_balance_e6 < i64OfU64 amount then
        Except.error VaultError.InsufficientBalance
      else
        match checked_sub user_account.available_balance_e6 (i64OfU64 amount) with
        | Except.error e => Except.error e
        | Except.ok avail =>
          match checked_add user_account.locked_margin_e6 (i64OfU64 amount) with
          | Except.error e => Except.error e
          | Except.ok locked =>
            Except.ok { user_account with
              available_balance_e6 := avail
              locked_margin_e6 := locked
              last_update_ts := current_ts }

/-- `process_release_margin` (processor.rs lines 585-613). -/
def processReleaseMargin (config : VaultConfig) (user_account : UserAccount)
    (callerKey ledgerConfigPda : Pubkey) (amount : Nat) (current_ts : Int) :
    Except VaultError UserAccount :=
  if amount == 0 then Except.error VaultError.InvalidAmount
  else
    match verify_cpi_caller config callerKey ledgerConfigPda with
    | Except.error e => Except.error e
    | Except.ok _ =>
      if user_account.locked_margin_e6 < i64OfU64 amount then
        Except.error VaultError.InsufficientMargin
      else
        match checked_sub user_account.locked_margin_e6 (i64OfU64 amount) with
        | Except.error e => Except.error e
        | Except.ok locked =>
          match checked_add user_account.available_balance_e6 (i64OfU64 amount) with
          | Except.error e => Except.error e
          | Except.ok avail =>
            Except.ok { user_account with
              available_balance_e6 := avail
              locked_margin_e6 := locked
              last_update_ts := current_ts }

/-- `process_close_position_settle` (processor.rs lines 619-672): release
margin, auto-sweep residual `locked_margin` under 1,000,000 e6, apply the
signed pnl, then debit the fee. -/
def processClosePositionSettle (config : VaultConfig)
    (user_account : UserAccount) (callerKey ledgerConfigPda : Pubkey)
    (margin_to_release : Nat) (realized_pnl : Int) (fee : Nat)
    (current_ts : Int) : Except VaultError UserAccount :=
  match verify_cpi_caller config callerKey ledgerConfigPda with
  | Except.error e => Except.error e
  | Except.ok _ =>
    if user_account.locked_margin_e6 < i64OfU64 margin_to_release then
      Except.error VaultError.InsufficientMargin
    else
      match checked_sub user_account.locked_margin_e6 (i64OfU64 margin_to_release) with
      | Except.error e => Except.error e
      | Except.ok locked1 =>
        match checked_add user_account.available_balance_e6 (i64OfU64 margin_to_release) with
        | Except.error e => Except.error e
        | Except.ok avail1 =>
          match
            (if locked1 > 0 ∧ locked1 < 1000000 then
              match checked_add avail1 locked1 with
              | Except.error e => Except.error e
              | Except.ok avail2 => Except.ok (avail2, (0 : Int))
            else (Except.ok (avail1, locked1) :
              Except VaultError (Int × Int))) with
          | Except.error e => Except.error e
          | Except.ok (avail2, locked2) =>
            match checked_add avail2 realized_pnl with
            | Except.error e => Except.error e
            | Except.ok avail3 =>
              if avail3 < i64OfU64 fee then
                Except.error VaultError.InsufficientBalance
              else
                match checked_sub avail3 (i64OfU64 fee) with
                | Except.error e => Except.error e
                | Except.ok avail4 =>
                  Except.ok { user_account with
                    available_balance_e6 := avail4
                    locked_margin_e6 := locked2
                    last_update_ts := current_ts }

/-- `process_relayer_deposit` (processor.rs lines 1358-1467).  `pdaOk` stands
for the user-account PDA check; `accountIsEmpty` selects the auto-provision
branch.  The handler deliberately skips the `is_paused` check and never
writes `VaultConfig` (its `total_deposits` stays untouched); the unchanged
config is returned to make that observable. -/
def processRelayerDeposit (adminSigner : Bool) (adminKey : Pubkey)
    (config : VaultConfig) (user_wallet : Pubkey) (pdaOk : Bool)
    (accountIsEmpty : Bool) (user_account : UserAccount) (bump : Nat)
    (amount : Nat) (current_ts : Int) :
    Except VaultError (UserAccount × VaultConfig) :=
  if !adminSigner then Except.error VaultError.MissingRequiredSignature
  else if !(config.admin == adminKey) then Except.error VaultError.InvalidRelayer
  else if amount == 0 then Except.error VaultError.InvalidAmount
  else if !pdaOk then Except.error VaultError.InvalidPda
  else if accountIsEmpty then
    Except.ok
      ({ discriminator := 0x555345525F414343
         wallet := user_wallet
         bump := bump
         available_balance_e6 := i64OfU64 amount
         locked_margin_e6 := 0
         unrealized_pnl_e6 := 0
         total_deposited_e6 := i64OfU64 amount
         total_withdrawn_e6 := 0
         last_update_ts := current_ts }, config)
  else if !(user_account.wallet == user_wallet) then
    Except.error VaultError.InvalidAccount
  else
    match checked_add user_account.available_balance_e6 (i64OfU64 amount) with
    | Except.error e => Except.error e
    | Except.ok avail =>
      match checked_add user_account.total_deposited_e6 (i64OfU64 amount) with
      | Except.error e => Except.error e
      | Except.ok dep =>
        Except.ok
          ({ user_account with
              available_balance_e6 := avail
              total_deposited_e6 := dep
              last_update_ts := current_ts }, config)

/-- `process_relayer_spot_settle_trade` (processor.rs lines 2506-2593):
settle the maker leg with `settle_trade_v2` (direction opposite the taker),
then the taker leg; either failure maps to `SettlementFailed` and aborts the
instruction, so neither account's new state is persisted. -/
def processRelayerSpotSettleTrade (adminSigner : Bool) (adminKey : Pubkey)
    (config : VaultConfig) (makerPdaOk takerPdaOk : Bool)
    (maker taker : SpotUserAccount) (base_token_index quote_token_index : Nat)
    (base_amount_e6 quote_amount_e6 maker_fee_e6 taker_fee_e6 : Int)
    (taker_is_buy : Bool) (sequence : Nat) (current_ts : Int) :
    Except VaultError (SpotUserAccount × SpotUserAccount) :=
  if !adminSigner then Except.error VaultError.MissingRequiredSignature
  else if !(config.admin == adminKey) then
    Except.error VaultError.UnauthorizedAdmin
  else if !makerPdaOk then Except.error VaultError.InvalidPda
  else if !takerPdaOk then Except.error VaultError.InvalidPda
  else
    match maker.settle_trade_v2 (!taker_is_buy) base_token_index
        quote_token_index base_amount_e6 quote_amount_e6 maker_fee_e6
        sequence current_ts with
    | Except.error _ => Except.error VaultError.SettlementFailed
    | Except.ok maker1 =>
      match taker.settle_trade_v2 taker_is_buy base_token_index
          quote_token_index base_amount_e6 quote_amount_e6 taker_fee_e6
          sequence current_ts with
      | Except.error _ => Except.error VaultError.SettlementFailed
      | Except.ok taker1 => Except.ok (maker1, taker1)

/-- `process_spot_release_to_vault` (processor.rs lines 2684-2743): debit
USDC (token index 0) from the spot sub-account, then credit the main user
account with an unchecked `+=` (hence `i64add`). -/
def processSpotReleaseToVault (adminSigner : Bool) (adminKey : Pubkey)
    (config : VaultConfig) (spotPdaOk userPdaOk : Bool)
    (spot_user : SpotUserAccount) (user_account : UserAccount) (amount : Nat)
    (current_ts : Int) : Except VaultError (SpotUserAccount × UserAccount) :=
  if !adminSigner then Except.error VaultError.MissingRequiredSignature
  else if !(config.admin == adminKey) then
    Except.error VaultError.UnauthorizedAdmin
  else if !spotPdaOk then Except.error VaultError.InvalidPda
  else if !userPdaOk then Except.error VaultError.InvalidPda
  else
    match spot_user.withdraw 0 (i64OfU64 amount) current_ts with
    | Except.error _ => Except.error VaultError.InsufficientBalance
    | Except.ok spot1 =>
      Except.ok (spot1,
        { user_account with
          available_balance_e6 :=
            i64add user_account.available_balance_e6 (i64OfU64 amount)
          last_update_ts := current_ts })

/-- `process_relayer_internal_transfer` (processor.rs lines 2758-2836).  The
deduction `(amount + fee) as i64` is an unchecked `u64` addition followed by
a cast, and both balance updates are unchecked `-=`/`+=` (hence the wrapping
operators).  `transfer_type` and `reference_hash` are only logged and are
omitted. -/
def processRelayerInternalTransfer (adminSigner : Bool) (adminKey : Pubkey)
    (config : VaultConfig) (fromPdaOk toPdaOk : Bool)
    (from_account to_account : UserAccount) (amount fee : Nat)
    (current_ts : Int) : Except VaultError (UserAccount × UserAccount) :=
  if !adminSigner then Except.error VaultError.MissingSignature
  else if !(config.admin == adminKey) then
    Except.error VaultError.UnauthorizedAdmin
  else if !fromPdaOk then Except.error VaultError.InvalidUserAccount
  else if !toPdaOk then Except.error VaultError.InvalidUserAccount
  else
    let total_deduction := i64OfU64 (wrapU64 (amount + fee))
    if from_account.available_balance_e6 < total_deduction then
      Except.error VaultError.InsufficientBalance
    else
      Except.ok
        ({ from_account with
            available_balance_e6 :=
              i64sub from_account.available_balance_e6 total_deduction
            last_update_ts := current_ts },
         { to_account with
            available_balance_e6 :=
              i64add to_account.available_balance_e6 (i64OfU64 amount)
            last_update_ts := current_ts })

/-- `process_execute_recurring_payment` (processor.rs lines 2937-3027).
Admin gate, PDA gates, active gate, strict cycle gate, then the unchecked
debit of `(amount + fee) as i64` from the payer, the unchecked credit of
`amount` to the payee, and `RecurringAuth::execute`.  The Insurance Fund
account named in the instruction docs is never touched: the fee is debited
from the payer and credited nowhere. -/
def processExecuteRecurringPayment (adminSigner : Bool) (adminKey : Pubkey)
    (config : VaultConfig) (payerPdaOk payeePdaOk authPdaOk : Bool)
    (payer_account payee_account : UserAccount) (recurring_auth : RecurringAuth)
    (amount fee : Nat) (cycle_count : Nat) (current_ts : Int) :
    Except VaultError (UserAccount × UserAccount × RecurringAuth) :=
  if !adminSigner then Except.error VaultError.MissingSignature
  else if !(config.admin == adminKey) then
    Except.error VaultError.UnauthorizedAdmin
  else if !payerPdaOk then Except.error VaultError.InvalidUserAccount
  else if !payeePdaOk then Except.error VaultError.InvalidUserAccount
  else if !authPdaOk then Except.error VaultError.InvalidPda
  else if !recurring_auth.is_active then
    Except.error VaultError.RecurringAuthNotActive
  else if !(cycle_count == wrapU32 (recurring_auth.current_cycles + 1)) then
    Except.error VaultError.InvalidCycleCount
  else
    let total_deduction := i64OfU64 (wrapU64 (amount + fee))
    if payer_account.available_balance_e6 < total_deduction then
      Except.error VaultError.InsufficientBalance
    else
      let payer1 : UserAccount :=
        { payer_account with
          available_balance_e6 :=
            i64sub payer_account.available_balance_e6 total_deduction
          last_update_ts := current_ts }
      let payee1 : UserAccount :=
        { payee_account with
          available_balance_e6 :=
            i64add payee_account.available_balance_e6 (i64OfU64 amount)
          last_update_ts := current_ts }
      match recurring_auth.execute current_ts with
      | Except.error _ => Except.error VaultError.RecurringAuthExecutionFailed
      | Except.ok auth1 => Except.ok (payer1, payee1, auth1)

-- ===========================================================================
-- Sample records for concrete runs
-- ===========================================================================

def sampleConfig (adminKey : Pubkey) (paused : Bool) : VaultConfig :=
  { discriminator := 0x5641554C545F434F
    admin := adminKey
    usdc_mint := 11
    vault_token_account := 12
    authorized_callers := List.replicate 10 pubkeyDefault
    ledger_program := 21
    fund_program := 22
    delegation_program := 23
    total_deposits := 0
    total_locked := 0
    is_paused := paused }

def sampleUser (wallet : Pubkey) (avail locked : Int) : UserAccount :=
  { discriminator := 0x555345525F414343
    wallet := wallet
    bump := 255
    available_balance_e6 := avail
    locked_margin_e6 := locked
    unrealized_pnl_e6 := 0
    total_deposited_e6 := 0
    total_withdrawn_e6 := 0
    last_update_ts := 0 }

def sampleSpot (wallet : Pubkey) (watermark : Nat) (slots : List TokenBalance) :
    SpotUserAccount :=
  { discriminator := 0x53504F545F555352
    wallet := wallet
    bump := 255
    last_settled_sequence := watermark
    token_count := slots.length
    token_balances := slots ++ List.replicate (MAX_TOKEN_SLOTS - slots.length) emptyTokenBalance
    last_update_ts := 0 }

-- ===========================================================================
-- Shared lemmas
-- ===========================================================================

theorem whitelist_any_false (caller : Pubkey) (l : List Pubkey)
    (h : ∀ a ∈ l, a ≠ pubkeyDefault → caller ≠ a) :
    (l.any fun a => a != pubkeyDefault && caller == a) = false := by
  rw [List.any_eq_false]
  intro a ha
  by_cases hz : a = pubkeyDefault
  · simp [hz]
  · have hne := h a ha hz
    simp [hz, hne]

-- ===========================================================================
-- Claims
-- ===========================================================================

/-- C10: for every `VaultConfig`, the all-zero caller identity is accepted by
`is_authorized_caller` exactly when `ledger_program` is itself the all-zero
value: the non-sentinel guard protects the `fund_program` comparison and the
whitelist entries, but not the `ledger_program` comparison.  In particular a
config whose `ledger_program` is zero authorizes the zero caller. -/
theorem zero_ledger_program_authorizes_zero_caller (c : VaultConfig) :
    c.is_authorized_caller pubkeyDefault = (c.ledger_program == pubkeyDefault) := by
  unfold VaultConfig.is_authorized_caller
  by_cases h : pubkeyDefault = c.ledger_program
  · simp [h]
  · rw [if_neg (by simpa using h)]
    have hfund : (c.fund_program != pubkeyDefault && pubkeyDefault == c.fund_program) = false := by
      by_cases hf : c.fund_program = pubkeyDefault
      · simp [hf]
      · simp [hf, Ne.symm hf]
    rw [hfund]
    simp only [Bool.false_eq_true, if_false]
    rw [whitelist_any_false pubkeyDefault c.authorized_callers
      (fun a _ hne => Ne.symm hne)]
    have : (c.ledger_program == pubkeyDefault) = false := by
      simp only [beq_eq_false_iff_ne, ne_eq]
      intro hh
      exact h hh.symm
    rw [this]

def pmAccountAtMax : PredictionMarketUserAccount :=
  { discriminator := 0x504D5F55534552
    wallet := 3
    bump := 255
    prediction_market_locked_e6 := 9223372036854775807
    prediction_market_pending_settlement_e6 := 0
    prediction_market_total_deposited_e6 := 0
    prediction_market_total_withdrawn_e6 := 0
    prediction_market_realized_pnl_e6 := 0
    last_update_ts := 0 }

/-- C2: the claim that every arithmetic step on persisted balances is
overflow-checked and aborts with `Overflow` fails on the code.  The
prediction-market lock uses an unchecked `+=`: locking 1 unit onto a locked
balance of `i64::MAX` silently wraps to `i64::MIN` instead of failing.  The
`RelayerInternalTransfer` debit computes `(amount + fee) as i64` with an
unchecked `u64` addition and credits with an unchecked `+=`: with
`amount = fee = 2^63` the deduction wraps to 0, the operation succeeds, the
payer is debited nothing, and the payee is credited `-2^63`. -/
theorem unchecked_balance_arithmetic_wraps :
    (pmAccountAtMax.prediction_market_lock 1 100).prediction_market_locked_e6
        = -9223372036854775808
    ∧ (processRelayerInternalTransfer true 7 (sampleConfig 7 false) true true
          (sampleUser 3 0 0) (sampleUser 4 0 0)
          9223372036854775808 9223372036854775808 100).toOption.map
        (fun p => (p.1.available_balance_e6, p.2.available_balance_e6))
        = some (0, -9223372036854775808) := by
  constructor
  · decide
  · decide

def spotOneUsdc : SpotUserAccount :=
  sampleSpot 3 0 [{ token_index := 0, available_e6 := 1, locked_e6 := 0 }]

/-- C3: the claim that no single operation drives `available + locked`
negative fails on the code.  `SpotReleaseToVault` credits the main account
with an unchecked `+=`: starting from the non-negative balances
`available = i64::MAX`, `locked = 0` (and 1 USDC e6 in the spot sub-account),
releasing 1 unit succeeds and wraps `available` to `i64::MIN`, leaving
`available + locked` negative. -/
theorem spot_release_wraps_available_negative :
    0 ≤ (sampleUser 3 9223372036854775807 0).available_balance_e6
    ∧ 0 ≤ (sampleUser 3 9223372036854775807 0).locked_margin_e6
    ∧ (processSpotReleaseToVault true 7 (sampleConfig 7 false) true true
          spotOneUsdc (sampleUser 3 9223372036854775807 0) 1 100).toOption.map
        (fun p => p.2.available_balance_e6 + p.2.locked_margin_e6)
        = some (-9223372036854775808) := by
  refine ⟨by decide, by decide, by decide⟩

/-- C4: both spot settlement variants reject any sequence less than or equal
to the account's `last_settled_sequence` (so a replayed settlement fails and,
the instruction aborting, no balance and no watermark is persisted), and any
successful settlement strictly increases the watermark, setting it exactly to
the presented sequence. -/
theorem settle_sequence_gate (s : SpotUserAccount) (is_buy : Bool)
    (b q : Nat) (ba qa fee : Int) (seq : Nat) (ts : Int) :
    (seq ≤ s.last_settled_sequence →
      s.settle_trade is_buy b q ba qa seq ts = Except.error "Invalid sequence" ∧
      s.settle_trade_v2 is_buy b q ba qa fee seq ts =
        Except.error "Invalid sequence - already settled") ∧
    (∀ s1, s.settle_trade is_buy b q ba qa seq ts = Except.ok s1 →
      s.last_settled_sequence < seq ∧ s1.last_settled_sequence = seq) ∧
    (∀ s1, s.settle_trade_v2 is_buy b q ba qa fee seq ts = Except.ok s1 →
      s.last_settled_sequence < seq ∧ s1.last_settled_sequence = seq) := by
  refine ⟨fun h => ?_, fun s1 h => ?_, fun s1 h => ?_⟩
  · unfold SpotUserAccount.settle_trade SpotUserAccount.settle_trade_v2
    rw [if_pos h, if_pos h]
    exact ⟨rfl, rfl⟩
  · unfold SpotUserAccount.settle_trade at h
    split at h
    · cases h
    · rename_i hseq
      split at h
      · cases h
      · injection h with h1
        subst h1
        exact ⟨by omega, rfl⟩
  · unfold SpotUserAccount.settle_trade_v2 at h
    split at h
    · cases h
    · rename_i hseq
      split at h
      · cases h
      · injection h with h1
        subst h1
        exact ⟨by omega, rfl⟩

def spotStaleWatermark : SpotUserAccount :=
  sampleSpot 3 5 [{ token_index := 0, available_e6 := 100, locked_e6 := 0 }]

def spotStaleWatermarkAfterBuy : SpotUserAccount :=
  { spotStaleWatermark with
    last_settled_sequence := 7
    token_count := 2
    token_balances :=
      { token_index := 0, available_e6 := 68, locked_e6 := 0 } ::
      { token_index := 1, available_e6 := 10, locked_e6 := 0 } ::
      List.replicate 14 emptyTokenBalance
    last_update_ts := 99 }

theorem settle_sequence_gate_witness :
    (spotStaleWatermark.settle_trade true 1 0 5 5 3 99 =
        Except.error "Invalid sequence" ∧
      spotStaleWatermark.settle_trade_v2 true 1 0 5 5 0 3 99 =
        Except.error "Invalid sequence - already settled") ∧
    (spotStaleWatermark.last_settled_sequence < 7 ∧
      spotStaleWatermarkAfterBuy.last_settled_sequence = 7) :=
  ⟨(settle_sequence_gate spotStaleWatermark true 1 0 5 5 0 3 99).1 (by decide),
   (settle_sequence_gate spotStaleWatermark true 1 0 10 30 2 7 99).2.2
     spotStaleWatermarkAfterBuy (by decide)⟩

/-- C1: if the taker side of `RelayerSpotSettleTrade` fails a precondition
(a stale sequence, or any settlement failure such as an insufficient taker
balance), the whole instruction returns an error; the failed instruction is
reverted, so the maker account — like the taker account — is left completely
unmutated: the operation applies to both accounts or to neither. -/
theorem relayer_spot_settle_taker_failure_aborts (adminSigner : Bool)
    (adminKey : Pubkey) (config : VaultConfig) (makerPdaOk takerPdaOk : Bool)
    (maker taker : SpotUserAccount) (b q : Nat) (ba qa mf tf : Int)
    (taker_is_buy : Bool) (seq : Nat) (ts : Int)
    (h : seq ≤ taker.last_settled_sequence ∨
      ∃ msg, taker.settle_trade_v2 taker_is_buy b q ba qa tf seq ts =
        Except.error msg) :
    ∃ e, processRelayerSpotSettleTrade adminSigner adminKey config makerPdaOk
      takerPdaOk maker taker b q ba qa mf tf taker_is_buy seq ts =
      Except.error e := by
  have hfail : ∃ msg, taker.settle_trade_v2 taker_is_buy b q ba qa tf seq ts =
      Except.error msg := by
    rcases h with h | h
    · refine ⟨"Invalid sequence - already settled", ?_⟩
      unfold SpotUserAccount.settle_trade_v2
      rw [if_pos h]
    · exact h
  obtain ⟨msg, hmsg⟩ := hfail
  unfold processRelayerSpotSettleTrade
  repeat' split
  all_goals try exact ⟨_, rfl⟩
  all_goals rename_i heq
  all_goals rw [hmsg] at heq
  all_goals cases heq

def takerSettled : SpotUserAccount :=
  sampleSpot 4 5 [{ token_index := 0, available_e6 := 100, locked_e6 := 0 }]

def makerFresh : SpotUserAccount :=
  sampleSpot 3 0 [{ token_index := 0, available_e6 := 100, locked_e6 := 0 }]

theorem relayer_spot_settle_taker_failure_aborts_witness :
    ∃ e, processRelayerSpotSettleTrade true 7 (sampleConfig 7 false) true true
      makerFresh takerSettled 1 0 5 5 0 0 true 3 99 = Except.error e :=
  relayer_spot_settle_taker_failure_aborts true 7 (sampleConfig 7 false)
    true true makerFresh takerSettled 1 0 5 5 0 0 true 3 99
    (Or.inl (by decide))

def recurringStep (st : UserAccount × UserAccount × RecurringAuth) (cycle : Nat) :
    Except VaultError (UserAccount × UserAccount × RecurringAuth) :=
  processExecuteRecurringPayment true 7 (sampleConfig 7 false) true true true
    st.1 st.2.1 st.2.2 10 1 cycle 1000

def recurringInit : UserAccount × UserAccount × RecurringAuth :=
  (sampleUser 3 1000 0, sampleUser 4 0 0, RecurringAuth.new 3 4 255 10 3600 3 500)

def recurringAfter3 : Except VaultError (UserAccount × UserAccount × RecurringAuth) :=
  Except.bind (Except.bind (recurringStep recurringInit 1)
    (fun st => recurringStep st 2)) (fun st => recurringStep st 3)

/-- C6: starting from a `RecurringAuth` with `max_cycles = 3`, executing
cycles 1, 2, 3 in order succeeds and the third execution auto-deactivates the
record (`is_active = false`, `current_cycles = 3`); presenting cycle 4 then
fails with `RecurringAuthNotActive`; and presenting cycle 3 while
`current_cycles = 0` fails with `InvalidCycleCount`. -/
theorem recurring_auth_lifecycle :
    (recurringAfter3.toOption.map fun st =>
        (st.2.2.is_active, st.2.2.current_cycles)) = some (false, 3)
    ∧ Except.bind recurringAfter3 (fun st => recurringStep st 4) =
        Except.error VaultError.RecurringAuthNotActive
    ∧ recurringStep recurringInit 3 =
        Except.error VaultError.InvalidCycleCount := by
  refine ⟨by decide, by decide, by decide⟩

/-- C5: the claim that `ExecuteRecurringPayment` routes the fee to an
insurance destination fails on the code: with `amount = 100`, `fee = 5`,
cycle 1 on a fresh bounded auth, the execution succeeds, debits 105 from the
payer, credits only 100 to the payee and advances the cycle counter — but the
handler never touches the Insurance Fund account its instruction docs
declare, so the 5-unit fee is debited from the payer and credited to no
account of the operation (the balance sum across the touched accounts drops
by exactly the fee, and the read-only config is returned unchanged). -/
theorem recurring_fee_not_routed :
    (processExecuteRecurringPayment true 7 (sampleConfig 7 false) true true true
        (sampleUser 3 1000 0) (sampleUser 4 50 0)
        (RecurringAuth.new 3 4 255 100 3600 3 500) 100 5 1 1000).toOption.map
      (fun st => (st.1.available_balance_e6, st.2.1.available_balance_e6,
                  st.2.2.current_cycles, st.2.2.is_active,
                  st.2.2.last_executed_at))
      = some (895, 150, 1, true, 1000)
    ∧ (895 + 150 : Int) = (1000 + 50) - 5 := by
  refine ⟨by decide, by decide⟩

/-- C7: whenever `ClosePositionSettle` succeeds and the residual
`locked_margin` left after releasing `margin_to_release` is strictly positive
and strictly below 1,000,000 e6 (1 USDC), the residual is swept in full into
`available` and `locked_margin` ends at exactly zero, so the final available
balance is `available + locked + realized_pnl - fee`. -/
theorem close_position_dust_sweep (config : VaultConfig) (user : UserAccount)
    (callerKey pda : Pubkey) (margin_to_release : Nat) (realized_pnl : Int)
    (fee : Nat) (ts : Int) (u1 : UserAccount)
    (hok : processClosePositionSettle config user callerKey pda
      margin_to_release realized_pnl fee ts = Except.ok u1)
    (hpos : 0 < user.locked_margin_e6 - i64OfU64 margin_to_release)
    (hlt : user.locked_margin_e6 - i64OfU64 margin_to_release < 1000000) :
    u1.locked_margin_e6 = 0 ∧
    u1.available_balance_e6 =
      user.available_balance_e6 + user.locked_margin_e6 + realized_pnl
        - i64OfU64 fee := by
  unfold processClosePositionSettle at hok
  split at hok
  · cases hok
  · split at hok
    · cases hok
    · split at hok
      · cases hok
      · rename_i locked1 hsub
        have hl1 : locked1 = user.locked_margin_e6 - i64OfU64 margin_to_release :=
          checked_sub_ok hsub
        split at hok
        · cases hok
        · rename_i avail1 hadd
          have ha1 : avail1 = user.available_balance_e6 + i64OfU64 margin_to_release :=
            checked_add_ok hadd
          split at hok
          · cases hok
          · rename_i avail2 locked2 hdust
            rw [if_pos (by constructor <;> omega)] at hdust
            split at hdust
            · cases hdust
            · rename_i avail2a hadd2
              have ha2 : avail2a = avail1 + locked1 := checked_add_ok hadd2
              injection hdust with hdust1
              have hav2 : avail2 = avail2a ∧ locked2 = 0 := by
                constructor
                · exact congrArg Prod.fst hdust1 |>.symm
                · exact congrArg Prod.snd hdust1 |>.symm
              obtain ⟨hav2a, hl2⟩ := hav2
              split at hok
              · cases hok
              · rename_i avail3 hadd3
                have ha3 : avail3 = avail2 + realized_pnl := checked_add_ok hadd3
                split at hok
                · cases hok
                · split at hok
                  · cases hok
                  · rename_i avail4 hsub4
                    have ha4 : avail4 = avail3 - i64OfU64 fee :=
                      checked_sub_ok hsub4
                    injection hok with hok1
                    subst hok1
                    refine ⟨hl2.symm ▸ rfl, ?_⟩
                    show avail4 = _
                    omega

def closeDustUser : UserAccount := sampleUser 3 0 1900000

def closeDustResult : UserAccount :=
  { closeDustUser with
    available_balance_e6 := 1900000
    locked_margin_e6 := 0
    last_update_ts := 99 }

theorem close_position_dust_sweep_witness :
    closeDustResult.locked_margin_e6 = 0 ∧
    closeDustResult.available_balance_e6 =
      closeDustUser.available_balance_e6 + closeDustUser.locked_margin_e6 + 0
        - i64OfU64 0 :=
  close_position_dust_sweep (sampleConfig 7 false) closeDustUser 21 99
    1000000 0 0 99 closeDustResult (by decide) (by decide) (by decide)

/-- C8: a whitelist-gated operation (here `LockMargin`, whose gate
`verify_cpi_caller` is shared with `ReleaseMargin` and
`ClosePositionSettle`) fails with `UnauthorizedCaller` — mutating nothing —
for every caller equal to none of the configured `ledger_program`, the
configured `fund_program` and the non-sentinel whitelist entries; and for
each of those three identity classes the authorization check passes, after
which the operation succeeds modulo its amount/balance preconditions. -/
theorem whitelist_gate (config : VaultConfig) :
    (∀ (user : UserAccount) (caller pda : Pubkey) (amount : Nat) (ts : Int),
      amount ≠ 0 →
      caller ≠ config.ledger_program →
      caller ≠ config.fund_program →
      (∀ a ∈ config.authorized_callers, a ≠ pubkeyDefault → caller ≠ a) →
      processLockMargin config user caller pda amount ts =
        Except.error VaultError.UnauthorizedCaller) ∧
    (∀ pda, verify_cpi_caller config config.ledger_program pda = Except.ok ()) ∧
    (∀ pda, config.fund_program ≠ pubkeyDefault →
      verify_cpi_caller config config.fund_program pda = Except.ok ()) ∧
    (∀ pda a, a ∈ config.authorized_callers → a ≠ pubkeyDefault →
      verify_cpi_caller config a pda = Except.ok ()) ∧
    (∀ (user : UserAccount) (caller pda : Pubkey) (amount : Nat) (ts : Int),
      verify_cpi_caller config caller pda = Except.ok () →
      amount ≠ 0 →
      i64OfU64 amount ≤ user.available_balance_e6 →
      inI64 (user.available_balance_e6 - i64OfU64 amount) →
      inI64 (user.locked_margin_e6 + i64OfU64 amount) →
      processLockMargin config user caller pda amount ts =
        Except.ok { user with
          available_balance_e6 := user.available_balance_e6 - i64OfU64 amount
          locked_margin_e6 := user.locked_margin_e6 + i64OfU64 amount
          last_update_ts := ts }) := by
  refine ⟨?_, ?_, ?_, ?_, ?_⟩
  · intro user caller pda amount ts hamt hled hfund hwl
    have hauth : config.is_authorized_caller caller = false := by
      unfold VaultConfig.is_authorized_caller
      rw [if_neg (by simpa using hled)]
      have hf : (config.fund_program != pubkeyDefault &&
          caller == config.fund_program) = false := by
        simp [hfund]
      rw [hf]
      simp only [Bool.false_eq_true, if_false]
      exact whitelist_any_false caller config.authorized_callers hwl
    unfold processLockMargin
    rw [if_neg (by simpa using hamt)]
    unfold verify_cpi_caller
    rw [hauth]
    simp
  · intro pda
    have hauth : config.is_authorized_caller config.ledger_program = true := by
      unfold VaultConfig.is_authorized_caller
      simp
    unfold verify_cpi_caller
    rw [hauth]
    simp only [Bool.not_true, Bool.false_eq_true, if_false]
    by_cases hp : config.ledger_program = pda
    · simp [hp]
    · rw [if_neg (by simpa using hp)]
      simp
  · intro pda hf
    have hauth : config.is_authorized_caller config.fund_program = true := by
      unfold VaultConfig.is_authorized_caller
      by_cases h1 : config.fund_program = config.ledger_program
      · simp [h1]
      · rw [if_neg (by simpa using h1)]
        rw [if_pos (by simp [hf])]
    unfold verify_cpi_caller
    rw [hauth]
    simp only [Bool.not_true, Bool.false_eq_true, if_false]
    repeat' split
    all_goals try rfl
    rename_i h1 h2 h3 h4
    exfalso
    apply h4
    simp [hf]
  · intro pda a hmem ha0
    have hauth : config.is_authorized_caller a = true := by
      unfold VaultConfig.is_authorized_caller
      by_cases h1 : a = config.ledger_program
      · simp [h1]
      · rw [if_neg (by simpa using h1)]
        by_cases h2 : (config.fund_program != pubkeyDefault &&
            a == config.fund_program) = true
        · rw [if_pos h2]
        · rw [if_neg h2]
          rw [List.any_eq_true]
          exact ⟨a, hmem, by simp [ha0]⟩
    unfold verify_cpi_caller
    rw [hauth]
    simp only [Bool.not_true, Bool.false_eq_true, if_false]
    repeat' split
    all_goals try rfl
    rename_i h1 h2 h3 h4
    exfalso
    apply h3
    rw [List.any_eq_true]
    exact ⟨a, hmem, by simp [ha0]⟩
  · intro user caller pda amount ts hv hamt hle hsub hadd
    unfold processLockMargin
    rw [if_neg (by simpa using hamt)]
    rw [hv]
    rw [if_neg (by omega)]
    rw [checked_sub_of_inI64 _ _ hsub]
    rw [checked_add_of_inI64 _ _ hadd]

def whitelistConfig : VaultConfig :=
  { sampleConfig 7 false with
    authorized_callers := 31 :: List.replicate 9 pubkeyDefault }

theorem whitelist_gate_witness :
    processLockMargin whitelistConfig (sampleUser 3 100 0) 55 99 10 42 =
      Except.error VaultError.UnauthorizedCaller
    ∧ verify_cpi_caller whitelistConfig (sampleConfig 7 false).ledger_program 99 =
        Except.ok ()
    ∧ verify_cpi_caller whitelistConfig (sampleConfig 7 false).fund_program 99 =
        Except.ok ()
    ∧ verify_cpi_caller whitelistConfig 31 99 = Except.ok ()
    ∧ processLockMargin whitelistConfig (sampleUser 3 100 0) 31 99 10 42 =
        Except.ok { sampleUser 3 100 0 with
          available_balance_e6 := (sampleUser 3 100 0).available_balance_e6 - i64OfU64 10
          locked_margin_e6 := (sampleUser 3 100 0).locked_margin_e6 + i64OfU64 10
          last_update_ts := 42 } :=
  ⟨(whitelist_gate whitelistConfig).1 (sampleUser 3 100 0) 55 99 10 42
      (by decide) (by decide) (by decide) (by decide),
   (whitelist_gate whitelistConfig).2.1 99,
   (whitelist_gate whitelistConfig).2.2.1 99 (by decide),
   (whitelist_gate whitelistConfig).2.2.2.1 99 31 (by decide) (by decide),
   (whitelist_gate whitelistConfig).2.2.2.2 (sampleUser 3 100 0) 31 99 10 42
      (by decide) (by decide) (by decide) (by decide) (by decide)⟩

/-- C9 counterexample: `RelayerDeposit` does NOT enforce the not-paused
precondition and does NOT update the config's running total of deposits.  On
a paused vault the self-service `Deposit` of 5 units fails with
`VaultPaused`, while the admin `RelayerDeposit` of the same 5 units on the
same existing account succeeds, credits the user, and leaves
`total_deposits` at 0 — refuting the claimed behavioural equality. -/
theorem relayer_deposit_ignores_pause_and_config :
    processDeposit true (sampleConfig 7 true) (sampleUser 3 10 0) 5 99 =
      Except.error VaultError.VaultPaused
    ∧ (processRelayerDeposit true 7 (sampleConfig 7 true) 3 true false
          (sampleUser 3 10 0) 255 5 99).toOption.map
        (fun p => (p.1.available_balance_e6, p.1.total_deposited_e6,
                   p.2.total_deposits))
      = some (15, 5, 0) := by
  refine ⟨by decide, by decide⟩

/-- C9 (amended): `RelayerDeposit` applied by the admin to an existing user
account applies exactly the same updates to the user record (available
balance, cumulative deposits, timestamp) as the self-service `Deposit` of
the same amount — whenever `Deposit` succeeds, `RelayerDeposit` produces the
identical user record — but, unlike `Deposit`, it performs no pause check
and leaves the config record (and its running total of deposits) untouched,
succeeding even on a paused vault. -/
theorem relayer_deposit_matches_user_record_effect (config : VaultConfig)
    (user : UserAccount) (bump amount : Nat) (ts : Int) :
    (∀ u1 c1, processDeposit true config user amount ts = Except.ok (u1, c1) →
      processRelayerDeposit true config.admin config user.wallet true false
          user bump amount ts = Except.ok (u1, config)
      ∧ c1.total_deposits = config.total_deposits + amount) ∧
    (amount ≠ 0 →
      inI64 (user.available_balance_e6 + i64OfU64 amount) →
      inI64 (user.total_deposited_e6 + i64OfU64 amount) →
      processRelayerDeposit true config.admin config user.wallet true false
          user bump amount ts =
        Except.ok ({ user with
          available_balance_e6 := user.available_balance_e6 + i64OfU64 amount
          total_deposited_e6 := user.total_deposited_e6 + i64OfU64 amount
          last_update_ts := ts }, config)) := by
  constructor
  · intro u1 c1 h
    unfold processDeposit at h
    split at h
    · cases h
    · split at h
      · cases h
      · split at h
        · cases h
        · rename_i hsig hamt hpause
          split at h
          · cases h
          · rename_i avail hav
            split at h
            · cases h
            · rename_i dep hdep
              split at h
              · cases h
              · rename_i total htot
                injection h with h1
                have hu1 : u1 = { user with
                    available_balance_e6 := avail
                    total_deposited_e6 := dep
                    last_update_ts := ts } :=
                  (congrArg Prod.fst h1).symm
                have hc1 : c1 = { config with total_deposits := total } :=
                  (congrArg Prod.snd h1).symm
                constructor
                · unfold processRelayerDeposit
                  rw [hav, hdep]
                  simp [hamt, hu1]
                · rw [hc1]
                  unfold checked_add_u64 at htot
                  split at htot
                  · have := (Except.ok.injEq _ _).mp htot
                    simp [← this]
                  · cases htot
  · intro hamt h1 h2
    unfold processRelayerDeposit
    rw [checked_add_of_inI64 _ _ h1, checked_add_of_inI64 _ _ h2]
    simp [hamt]

def depositResultUser : UserAccount :=
  { sampleUser 3 10 0 with
    available_balance_e6 := 15
    total_deposited_e6 := 5
    last_update_ts := 99 }

def depositResultConfig : VaultConfig :=
  { sampleConfig 7 false with total_deposits := 5 }

theorem relayer_deposit_matches_user_record_effect_witness :
    (processRelayerDeposit true (sampleConfig 7 false).admin
        (sampleConfig 7 false) (sampleUser 3 10 0).wallet true false
        (sampleUser 3 10 0) 255 5 99 =
      Except.ok (depositResultUser, sampleConfig 7 false)
    ∧ depositResultConfig.total_deposits =
        (sampleConfig 7 false).total_deposits + 5) :=
  (relayer_deposit_matches_user_record_effect (sampleConfig 7 false)
    (sampleUser 3 10 0) 255 5 99).1 depositResultUser depositResultConfig
    (by decide)
